import Mathlib

/-!
# Verification of `generate_downtime_events.py`

Shallow embedding of the downtime-event generator. The script draws
pseudo-random values (uniform integers, an exponential duration, a normal
pieces count, categorical choices) and assembles one record per event.
We abstract the pseudo-random source as an explicit `Draw` record: one
`Draw` holds the values the random calls of a single loop iteration
return, with the index draws constrained to the ranges `random.randint`
and `random.choice` produce. Real-valued draws are modelled as rationals
(exact real-number semantics of the script's float arithmetic), and
timestamps as rational minutes since 2024-01-01 00:00.
-/

namespace Downtime

/-- Source constant `n_rows`: number of events to generate. -/
def n_rows : ℕ := 8000

/-- Source constant `date_range_days`:
`(datetime(2024,6,30) - datetime(2024,1,1)).days = 181`. -/
def date_range_days : ℕ := 181

/-- Source list `lines`. -/
def lines : List String := ["BodyShop", "PaintShop", "FinalAssembly"]

/-- Source dict `stations_per_line`, as a lookup function
(keys outside the dict are never used by the generator). -/
def stations_per_line : String → List String
  | "BodyShop" => ["BS_Weld_01", "BS_Weld_02", "BS_Trans_01", "BS_QC_01"]
  | "PaintShop" => ["PS_Prep_01", "PS_Paint_01", "PS_Oven_01", "PS_QC_01"]
  | "FinalAssembly" => ["FA_Conv_01", "FA_Station_01", "FA_Station_02", "FA_QC_01"]
  | _ => []

/-- Python `str(n).zfill(3)` for the robot numbers (all are < 100). -/
def zfill3 (n : ℕ) : String :=
  if n < 10 then "00" ++ toString n
  else if n < 100 then "0" ++ toString n
  else toString n

/-- Source list `robots = [f"R{str(i).zfill(3)}" for i in range(1, 31)]`. -/
def robots : List String := (List.range 30).map (fun i => "R" ++ zfill3 (i + 1))

/-- Source list `failure_codes`. -/
def failure_codes : List String := ["E01", "E02", "E03", "E04", "E05", "E06"]

/-- Source dict `failure_categories`, as an optional lookup
(`none` models a `KeyError`). -/
def failure_categories : String → Option String
  | "E01" => some "mechanical"
  | "E02" => some "electrical"
  | "E03" => some "programming"
  | "E04" => some "sensor"
  | "E05" => some "material_supply"
  | "E06" => some "other"
  | _ => none

/-- Source function `get_shift`. -/
def get_shift (hour : ℕ) : String :=
  if 6 ≤ hour ∧ hour < 14 then "morning"
  else if 14 ≤ hour ∧ hour < 22 then "afternoon"
  else "night"

/-- Weekday names in `strftime("%A")` form, starting at Monday
(2024-01-01 is a Monday). -/
def weekday_names : List String :=
  ["Monday", "Tuesday", "Wednesday", "Thursday", "Friday", "Saturday", "Sunday"]

/-- Value of `ts_start.strftime("%A")`: the weekday of
`start_date + day_offset`. -/
def day_of_week_name (day_offset : ℕ) : String :=
  weekday_names.getD (day_offset % 7) ""

/-- The values returned by the random calls of one loop iteration, in
program order. Index draws carry the range the corresponding
`random.randint` / `random.choice` call guarantees; the exponential and
normal draws are unconstrained rationals (the clamping in the generator
makes no further constraint necessary). -/
structure Draw where
  dayOffset : Fin (date_range_days + 1)
  hour : Fin 24
  minute : Fin 60
  rawDuration : ℚ
  lineIdx : Fin 3
  stationIdx : Fin 4
  robotIdx : Fin 30
  fCodeIdx : Fin 6
  rawPieces : ℚ
deriving DecidableEq

/-- One output row (the `row` dict of the source). Timestamps are
rational minutes since 2024-01-01 00:00; `downtime_minutes` is the
stored rounded value; `pieces_lost` the stored integer. -/
structure Event where
  event_id : ℕ
  timestamp_start : ℚ
  timestamp_end : ℚ
  line_id : String
  station_id : String
  robot_id : String
  failure_code : String
  failure_category : String
  downtime_minutes : ℚ
  shift : String
  pieces_lost : ℤ
  day_of_week : String
deriving DecidableEq

/-- Source function `random_timestamp()`: `start_date + day_offset days`
with the drawn hour and minute, in minutes since `start_date`. -/
def random_timestamp (d : Draw) : ℚ :=
  (d.dayOffset.val : ℚ) * 1440 + (d.hour.val : ℚ) * 60 + (d.minute.val : ℚ)

/-- Source line 72: `duration = max(1.0, min(240.0, raw_duration))`. -/
def duration (d : Draw) : ℚ := max 1 (min 240 d.rawDuration)

/-- Source line 76: `line = random.choice(lines)`. -/
def line_of (d : Draw) : String := lines.getD d.lineIdx.val ""

/-- Source line 87: `shift = get_shift(ts_start.hour)`; the hour of
`ts_start` is the hour drawn in `random_timestamp`. -/
def shift_of (d : Draw) : String := get_shift d.hour.val

/-- The duration after the bias block (source lines 96-99):
`duration *= 1.1` when the shift is night, then `duration *= 1.05` when
the line is BodyShop. -/
def biased_duration (d : Draw) : ℚ :=
  let dur1 := if shift_of d = "night" then duration d * (11 / 10) else duration d
  if line_of d = "BodyShop" then dur1 * (21 / 20) else dur1

/-- Python `round(x, 1)`: round to the nearest multiple of 1/10 (the
tie behaviour is immaterial to the claims; modelled half-up). -/
def round1 (x : ℚ) : ℚ := ((round (10 * x) : ℤ) : ℚ) / 10

/-- The body of the generation loop (source lines 65-116) for loop
index `i` and random draws `d`: builds the `row` dict. -/
def genEvent (i : ℕ) (d : Draw) : Event :=
  let ts_start := random_timestamp d
  let dur := duration d
  let ts_end := ts_start + dur
  let line := line_of d
  let station := (stations_per_line line).getD d.stationIdx.val ""
  let robot := robots.getD d.robotIdx.val ""
  let f_code := failure_codes.getD d.fCodeIdx.val ""
  let f_cat := (failure_categories f_code).getD ""
  let shift := shift_of d
  let pieces : ℤ := ⌊max 0 d.rawPieces⌋
  { event_id := i + 1
    timestamp_start := ts_start
    timestamp_end := ts_end
    line_id := line
    station_id := station
    robot_id := robot
    failure_code := f_code
    failure_category := f_cat
    downtime_minutes := round1 (biased_duration d)
    shift := shift
    pieces_lost := pieces
    day_of_week := day_of_week_name d.dayOffset.val }

/-- The full generation loop: `rows` after the `for i in range(n_rows)`
loop, given the stream of per-iteration draws the seeded generators
produce. -/
def generate (ds : ℕ → Draw) : List Event :=
  (List.range n_rows).map (fun i => genEvent i (ds i))

/-- CSV header in the column order of the `row` dict. -/
def csv_header : String :=
  "event_id,timestamp_start,timestamp_end,line_id,station_id,robot_id," ++
    "failure_code,failure_category,downtime_minutes,shift,pieces_lost,day_of_week"

/-- One serialized CSV row (field formatting abstracted by `toString`). -/
def csv_row (e : Event) : String :=
  String.intercalate ","
    [toString e.event_id, toString e.timestamp_start, toString e.timestamp_end,
      e.line_id, e.station_id, e.robot_id, e.failure_code, e.failure_category,
      toString e.downtime_minutes, e.shift, toString e.pieces_lost, e.day_of_week]

/-- Model of `df.to_csv`: the serialized output file contents. -/
def to_csv (events : List Event) : String :=
  String.intercalate "\n" (csv_header :: events.map csv_row) ++ "\n"

/-- The hour component of a timestamp given in minutes since midnight of
some day: floor to whole hours, modulo 24. -/
def hour_of_ts (ts : ℚ) : ℕ := (⌊ts / 60⌋ % 24).toNat

/-- The station map with BodyShop misconfigured to an empty station
list (the scenario of the spec's ConfigurationError requirement). -/
def stations_empty_bodyshop : String → List String
  | "BodyShop" => []
  | s => stations_per_line s

/-- Python `random.choice(seq)` as a fallible lookup: on an empty
sequence the internal index lookup raises `IndexError`. -/
def choiceE (l : List String) (i : ℕ) : Except String String :=
  match l.get? i with
  | some s => Except.ok s
  | none => Except.error "IndexError"

/-- The loop body with the station map as explicit configuration: the
station pick is the only draw that can raise, and it raises exactly
when the chosen line's station list does not contain the drawn index
(in particular always, when that list is empty). -/
def genEventCfg (cfg : String → List String) (i : ℕ) (d : Draw) : Except String Event :=
  match choiceE (cfg (line_of d)) d.stationIdx.val with
  | Except.error e => Except.error e
  | Except.ok station => Except.ok { genEvent i d with station_id := station }

/-- The generation loop with explicit configuration, from loop index
`k` for `n` more iterations: stops at the first raised error, keeping
no rows (the Python loop dies with the exception). -/
def genLoopCfg (cfg : String → List String) (ds : ℕ → Draw) : ℕ → ℕ → Except String (List Event)
  | _, 0 => Except.ok []
  | k, n + 1 =>
    match genEventCfg cfg k (ds k) with
    | Except.error e => Except.error e
    | Except.ok ev =>
      match genLoopCfg cfg ds (k + 1) n with
      | Except.error e => Except.error e
      | Except.ok evs => Except.ok (ev :: evs)

/-- The full generation loop with explicit station configuration. -/
def generateCfg (cfg : String → List String) (ds : ℕ → Draw) : Except String (List Event) :=
  genLoopCfg cfg ds 0 n_rows

/-- Modelled from the spec (step 2 of the per-event algorithm): clamp
the raw exponential draw to `[1, 240]` — the pre-bias duration. -/
def spec_pre_bias_duration (d : Draw) : ℚ := max 1 (min 240 d.rawDuration)

/-- Modelled from the spec (step 8): multiply the duration by 1.10 when
the shift is night and by 1.05 when the line is BodyShop, the two
factors applying independently and compounding. -/
def spec_post_bias (dur : ℚ) (shift line : String) : ℚ :=
  dur * (if shift = "night" then 11 / 10 else 1) * (if line = "BodyShop" then 21 / 20 else 1)

/-- A draw with every field at its least value. -/
def dZero : Draw :=
  ⟨⟨0, by norm_num⟩, ⟨0, by norm_num⟩, ⟨0, by norm_num⟩, 0,
    ⟨0, by norm_num⟩, ⟨0, by norm_num⟩, ⟨0, by norm_num⟩, ⟨0, by norm_num⟩, 0⟩

/-- A draw at hour 23 (night shift), line PaintShop, raw duration 10:
the night bias applies but the BodyShop bias does not. -/
def dNight : Draw :=
  ⟨⟨0, by norm_num⟩, ⟨23, by norm_num⟩, ⟨0, by norm_num⟩, 10,
    ⟨1, by norm_num⟩, ⟨0, by norm_num⟩, ⟨0, by norm_num⟩, ⟨0, by norm_num⟩, 0⟩

/-- A draw whose normal pieces draw returns 2.7. -/
def dPieces : Draw :=
  ⟨⟨0, by norm_num⟩, ⟨12, by norm_num⟩, ⟨0, by norm_num⟩, 10,
    ⟨1, by norm_num⟩, ⟨0, by norm_num⟩, ⟨0, by norm_num⟩, ⟨0, by norm_num⟩, 27 / 10⟩

/-- A draw hitting both biases at the duration cap: hour 23 (night),
line BodyShop, raw duration 240. -/
def dMax : Draw :=
  ⟨⟨0, by norm_num⟩, ⟨23, by norm_num⟩, ⟨0, by norm_num⟩, 240,
    ⟨0, by norm_num⟩, ⟨0, by norm_num⟩, ⟨0, by norm_num⟩, ⟨0, by norm_num⟩, 0⟩

/-- A daytime draw choosing line PaintShop. -/
def dPaint : Draw :=
  ⟨⟨0, by norm_num⟩, ⟨12, by norm_num⟩, ⟨0, by norm_num⟩, 10,
    ⟨1, by norm_num⟩, ⟨0, by norm_num⟩, ⟨0, by norm_num⟩, ⟨0, by norm_num⟩, 0⟩

/-- A daytime draw choosing line BodyShop. -/
def dBody : Draw :=
  ⟨⟨0, by norm_num⟩, ⟨12, by norm_num⟩, ⟨0, by norm_num⟩, 10,
    ⟨0, by norm_num⟩, ⟨0, by norm_num⟩, ⟨0, by norm_num⟩, ⟨0, by norm_num⟩, 0⟩

/-- A draw stream whose first iteration picks PaintShop and whose later
iterations pick BodyShop. -/
def dsBad : ℕ → Draw := fun k => if k = 0 then dPaint else dBody

end Downtime

namespace Downtime

lemma duration_ge_one (d : Draw) : 1 ≤ duration d := le_max_left _ _

lemma duration_le_240 (d : Draw) : duration d ≤ 240 :=
  max_le (by norm_num) (min_le_left _ _)

lemma biased_duration_ge (d : Draw) : duration d ≤ biased_duration d := by
  have h1 := duration_ge_one d
  unfold biased_duration
  split_ifs <;> ring_nf <;> linarith

lemma biased_duration_le (d : Draw) : biased_duration d ≤ 1386 / 5 := by
  have h1 := duration_ge_one d
  have h2 := duration_le_240 d
  unfold biased_duration
  split_ifs <;> ring_nf <;> linarith

lemma round1_mono {x y : ℚ} (h : x ≤ y) : round1 x ≤ round1 y := by
  unfold round1
  have hr : round (10 * x) ≤ round (10 * y) := by
    rw [round_eq, round_eq]
    exact Int.floor_mono (by linarith)
  have hc : ((round (10 * x) : ℤ) : ℚ) ≤ ((round (10 * y) : ℤ) : ℚ) := by exact_mod_cast hr
  linarith

lemma round1_one : round1 1 = 1 := by
  norm_num [round1, round_eq, Int.floor_eq_iff]

lemma round1_cap : round1 (1386 / 5) = 1386 / 5 := by
  norm_num [round1, round_eq, Int.floor_eq_iff]

lemma downtime_ge_one (i : ℕ) (d : Draw) : 1 ≤ (genEvent i d).downtime_minutes := by
  show 1 ≤ round1 (biased_duration d)
  have h : 1 ≤ biased_duration d :=
    le_trans (duration_ge_one d) (biased_duration_ge d)
  calc 1 = round1 1 := round1_one.symm
  _ ≤ round1 (biased_duration d) := round1_mono h

lemma downtime_le_cap (i : ℕ) (d : Draw) : (genEvent i d).downtime_minutes ≤ 1386 / 5 := by
  show round1 (biased_duration d) ≤ 1386 / 5
  calc round1 (biased_duration d) ≤ round1 (1386 / 5) := round1_mono (biased_duration_le d)
  _ = 1386 / 5 := round1_cap

lemma station_mem_idx (li : Fin 3) (si : Fin 4) :
    (stations_per_line (lines.getD li.val "")).getD si.val "" ∈
      stations_per_line (lines.getD li.val "") := by
  fin_cases li <;> fin_cases si <;> decide

lemma fcat_lookup_idx (fi : Fin 6) :
    failure_categories (failure_codes.getD fi.val "") =
      some ((failure_categories (failure_codes.getD fi.val "")).getD "") := by
  fin_cases fi <;> decide

lemma get_shift_iff (h : ℕ) :
    (get_shift h = "morning" ↔ 6 ≤ h ∧ h < 14) ∧
    (get_shift h = "afternoon" ↔ 14 ≤ h ∧ h < 22) ∧
    (get_shift h = "night" ↔ ¬(6 ≤ h ∧ h < 14) ∧ ¬(14 ≤ h ∧ h < 22)) := by
  unfold get_shift
  split_ifs <;> simp_all

lemma hour_of_genEvent (i : ℕ) (d : Draw) :
    hour_of_ts (genEvent i d).timestamp_start = d.hour.val := by
  show hour_of_ts (random_timestamp d) = d.hour.val
  have hm : (d.minute.val : ℚ) < 60 := by exact_mod_cast d.minute.isLt
  have hm0 : (0 : ℚ) ≤ (d.minute.val : ℚ) := by positivity
  have hfloor : ⌊random_timestamp d / 60⌋ = (d.dayOffset.val * 24 + d.hour.val : ℤ) := by
    rw [Int.floor_eq_iff]
    constructor
    · rw [le_div_iff₀ (by norm_num : (0 : ℚ) < 60)]
      unfold random_timestamp
      push_cast
      linarith
    · rw [div_lt_iff₀ (by norm_num : (0 : ℚ) < 60)]
      unfold random_timestamp
      push_cast
      linarith
  unfold hour_of_ts
  rw [hfloor]
  have hh := d.hour.isLt
  omega

lemma biased_eq_spec (d : Draw) :
    biased_duration d = spec_post_bias (spec_pre_bias_duration d) (shift_of d) (line_of d) := by
  unfold biased_duration spec_post_bias spec_pre_bias_duration duration
  split_ifs <;> ring

lemma dNight_start : (genEvent 0 dNight).timestamp_start = 1380 := by
  show ((0 : ℕ) : ℚ) * 1440 + ((23 : ℕ) : ℚ) * 60 + ((0 : ℕ) : ℚ) = 1380
  norm_num

lemma dNight_end : (genEvent 0 dNight).timestamp_end = 1390 := by
  show ((0 : ℕ) : ℚ) * 1440 + ((23 : ℕ) : ℚ) * 60 + ((0 : ℕ) : ℚ) + max 1 (min 240 (10 : ℚ)) = 1390
  norm_num

lemma dNight_downtime : (genEvent 0 dNight).downtime_minutes = 11 := by
  show round1 (biased_duration dNight) = 11
  have hb : biased_duration dNight = 11 := by
    show (if get_shift 23 = "night" then max 1 (min 240 (10 : ℚ)) * (11 / 10)
          else max 1 (min 240 (10 : ℚ))) = 11
    norm_num [get_shift]
  rw [hb]
  show ((round ((10 : ℚ) * 11) : ℤ) : ℚ) / 10 = 11
  norm_num [round_eq, Int.floor_eq_iff]

lemma dMax_downtime : (genEvent 0 dMax).downtime_minutes = 1386 / 5 := by
  show round1 (biased_duration dMax) = 1386 / 5
  have hs : shift_of dMax = "night" := by decide
  have hl : line_of dMax = "BodyShop" := by decide
  have hd : duration dMax = 240 := by
    show max 1 (min 240 (240 : ℚ)) = 240
    norm_num
  have hb : biased_duration dMax = 1386 / 5 := by
    unfold biased_duration
    rw [hs, hl, hd]
    norm_num
  rw [hb, round1_cap]

/-- C1: the data-model table asserts `timestamp_end = timestamp_start +
downtime_minutes` with the stored post-bias value. Refuted: at a night
draw of pre-bias duration 10, the end time is start + 10 while the
stored `downtime_minutes` is 11. -/
theorem c1_counterexample :
    ¬ ((genEvent 0 dNight).timestamp_end =
        (genEvent 0 dNight).timestamp_start + (genEvent 0 dNight).downtime_minutes) := by
  rw [dNight_start, dNight_end, dNight_downtime]
  norm_num

/-- C1 (amended): for every generated event, `timestamp_end` equals
`timestamp_start` plus the clamped pre-bias duration, not plus the
stored post-bias `downtime_minutes`. -/
theorem c1_end_uses_pre_bias_duration (i : ℕ) (d : Draw) :
    (genEvent i d).timestamp_end = (genEvent i d).timestamp_start + spec_pre_bias_duration d :=
  rfl

/-- C2: `timestamp_end` is start plus the clamped pre-bias duration
(before the night/BodyShop multiplications), while the stored
`downtime_minutes` is the post-bias duration rounded to 1 decimal. -/
theorem c2_end_pre_bias_downtime_post_bias (i : ℕ) (d : Draw) :
    (genEvent i d).timestamp_end = (genEvent i d).timestamp_start + spec_pre_bias_duration d ∧
    (genEvent i d).downtime_minutes =
      round1 (spec_post_bias (spec_pre_bias_duration d) (genEvent i d).shift
        (genEvent i d).line_id) := by
  refine ⟨rfl, ?_⟩
  show round1 (biased_duration d) = _
  rw [biased_eq_spec d]
  rfl

/-- C3: the claim computes `pieces_lost` as `max(0, round(raw_pieces))`
with rounding to the nearest integer. Refuted: at a raw pieces draw of
2.7 the code stores 2 (truncation), not 3. -/
theorem c3_counterexample :
    ¬ ((genEvent 0 dPieces).pieces_lost = max 0 (round dPieces.rawPieces)) := by
  have h1 : (genEvent 0 dPieces).pieces_lost = 2 := by
    show ⌊max 0 ((27 : ℚ) / 10)⌋ = 2
    rw [max_eq_right (by norm_num : (0 : ℚ) ≤ 27 / 10)]
    rw [Int.floor_eq_iff]
    norm_num
  have h2 : round dPieces.rawPieces = 3 := by
    show round ((27 : ℚ) / 10) = 3
    rw [round_eq, Int.floor_eq_iff]
    norm_num
  rw [h1, h2]
  norm_num

/-- C3 (amended): `pieces_lost` equals `max(0, floor(raw_pieces))` — the
`int()` conversion truncates the non-negative clamp of the normal draw
toward zero rather than rounding it to the nearest integer. -/
theorem c3_pieces_truncated (i : ℕ) (d : Draw) :
    (genEvent i d).pieces_lost = max 0 ⌊d.rawPieces⌋ := by
  show ⌊max 0 d.rawPieces⌋ = max 0 ⌊d.rawPieces⌋
  rcases le_total 0 d.rawPieces with h | h
  · rw [max_eq_right h, max_eq_right (Int.floor_nonneg.mpr h)]
  · rw [max_eq_left h, Int.floor_zero, max_eq_left (Int.floor_nonpos h)]

/-- C4: the claim bounds the stored `downtime_minutes` by approximately
264 (the night bias alone). Refuted: when both biases apply at the cap
the stored value is 240 × 1.1 × 1.05 = 277.2 > 264. -/
theorem c4_counterexample : ¬ ((genEvent 0 dMax).downtime_minutes ≤ 264) := by
  rw [dMax_downtime]
  norm_num

/-- C4 (amended): the stored post-bias `downtime_minutes` is at least 1
and at most 277.2 = 240 × 1.1 × 1.05 (the compounded bias cap), which
exceeds 264 when both biases apply. -/
theorem c4_downtime_bounds (i : ℕ) (d : Draw) :
    1 ≤ (genEvent i d).downtime_minutes ∧ (genEvent i d).downtime_minutes ≤ 1386 / 5 :=
  ⟨downtime_ge_one i d, downtime_le_cap i d⟩

/-- C5: the claim requires a misconfigured (empty) station list to fail
fast with a ConfigurationError before any event is generated. Refuted:
with BodyShop mapped to an empty list, the first event (which draws
PaintShop) is generated successfully, and the run then dies with the
IndexError of `random.choice` on an empty sequence — mid-generation,
with no ConfigurationError. -/
theorem c5_counterexample :
    (genEventCfg stations_empty_bodyshop 0 dPaint).toOption.isSome = true ∧
    generateCfg stations_empty_bodyshop dsBad = Except.error "IndexError" :=
  ⟨rfl, rfl⟩

/-- C5 (amended): with a line mapped to an empty station list there is
no fail-fast ConfigurationError: each loop iteration raises an
IndexError exactly when its line draw selects the misconfigured line,
and completes normally otherwise. -/
theorem c5_empty_station_fails_on_line_draw (k : ℕ) (d : Draw) :
    genEventCfg stations_empty_bodyshop k d = Except.error "IndexError" ↔
      line_of d = "BodyShop" := by
  rcases d with ⟨o, h, m, rd, li, si, ri, fi, rp⟩
  fin_cases li
  · simp [genEventCfg, line_of, lines, stations_empty_bodyshop, choiceE]
  · fin_cases si <;>
      simp [genEventCfg, line_of, lines, stations_empty_bodyshop, stations_per_line, choiceE]
  · fin_cases si <;>
      simp [genEventCfg, line_of, lines, stations_empty_bodyshop, stations_per_line, choiceE]

/-- C6: generation is deterministic — two runs whose seeded random
streams agree (the seed reset between runs makes them agree) produce the
same event sequence and byte-identical serialized output. -/
theorem c6_deterministic (ds₁ ds₂ : ℕ → Draw) (h : ∀ i, ds₁ i = ds₂ i) :
    generate ds₁ = generate ds₂ ∧ to_csv (generate ds₁) = to_csv (generate ds₂) := by
  have he : ds₁ = ds₂ := funext h
  subst he
  exact ⟨rfl, rfl⟩

/-- Witness for C6 at the constant all-zero stream. -/
theorem c6_deterministic_witness :
    generate (fun _ => dZero) = generate (fun _ => dZero) ∧
    to_csv (generate (fun _ => dZero)) = to_csv (generate (fun _ => dZero)) :=
  c6_deterministic (fun _ => dZero) (fun _ => dZero) (fun _ => rfl)

/-- C7: every event's station belongs to its line's station set, its
failure category is the fixed lookup of its failure code, and its shift
is morning exactly when the start hour is in [6,14), afternoon exactly
when in [14,22), and night otherwise. -/
theorem c7_domain_invariants (i : ℕ) (d : Draw) :
    (genEvent i d).station_id ∈ stations_per_line (genEvent i d).line_id ∧
    failure_categories (genEvent i d).failure_code = some (genEvent i d).failure_category ∧
    ((genEvent i d).shift = "morning" ↔
      6 ≤ hour_of_ts (genEvent i d).timestamp_start ∧
        hour_of_ts (genEvent i d).timestamp_start < 14) ∧
    ((genEvent i d).shift = "afternoon" ↔
      14 ≤ hour_of_ts (genEvent i d).timestamp_start ∧
        hour_of_ts (genEvent i d).timestamp_start < 22) ∧
    ((genEvent i d).shift = "night" ↔
      ¬(6 ≤ hour_of_ts (genEvent i d).timestamp_start ∧
          hour_of_ts (genEvent i d).timestamp_start < 14) ∧
        ¬(14 ≤ hour_of_ts (genEvent i d).timestamp_start ∧
            hour_of_ts (genEvent i d).timestamp_start < 22)) := by
  refine ⟨station_mem_idx d.lineIdx d.stationIdx, fcat_lookup_idx d.fCodeIdx, ?_⟩
  rw [hour_of_genEvent i d]
  exact ⟨(get_shift_iff d.hour.val).1, (get_shift_iff d.hour.val).2.1,
    (get_shift_iff d.hour.val).2.2⟩

/-- C8: every event ends strictly after it starts, and the stored
`downtime_minutes` is at least 1 (the clamp lower bound survives the
bias multiplications, which only increase the value). -/
theorem c8_ordering_range (i : ℕ) (d : Draw) :
    (genEvent i d).timestamp_start < (genEvent i d).timestamp_end ∧
    1 ≤ (genEvent i d).downtime_minutes := by
  constructor
  · show random_timestamp d < random_timestamp d + duration d
    have := duration_ge_one d
    linarith
  · exact downtime_ge_one i d

/-- C9: the loop produces exactly `n_rows` events and the i-th event of
the output (1-based) has `event_id = i`: ids are sequential from 1. -/
theorem c9_row_count_event_ids (ds : ℕ → Draw) :
    (generate ds).length = n_rows ∧
    ∀ i (h : i < (generate ds).length), ((generate ds).get ⟨i, h⟩).event_id = i + 1 := by
  constructor
  · simp [generate]
  · intro i h
    simp only [generate, List.get_eq_getElem, List.getElem_map, List.getElem_range]
    rfl

/-- Witness for C9 at the constant all-zero stream and index 0. -/
theorem c9_row_count_event_ids_witness :
    ((generate (fun _ => dZero)).get ⟨0, by norm_num [generate, n_rows]⟩).event_id = 1 :=
  (c9_row_count_event_ids (fun _ => dZero)).2 0 (by norm_num [generate, n_rows])

/-- C10: the interval `timestamp_end - timestamp_start` never exceeds
240 minutes, because the end time is computed from the clamped pre-bias
duration and never from the bias-inflated value. -/
theorem c10_interval_le_240 (i : ℕ) (d : Draw) :
    (genEvent i d).timestamp_end - (genEvent i d).timestamp_start ≤ 240 := by
  show random_timestamp d + duration d - random_timestamp d ≤ 240
  have := duration_le_240 d
  linarith

end Downtime
